import Mathlib

/-!
# Corsair example register maps: the generated C headers

A shallow embedding of the two generated headers

* `examples/regmap_yaml/sw/regs.h` (namespace `RegmapYaml`)
* `examples/regmap_txt/sw/regs.h`  (namespace `RegmapTxt`)

Every `#define` of a header is a `Nat` constant of the same name, every
`typedef struct` is the list of its member declarations in declaration order,
every `typedef enum` is the list of its enumerators.  The per-register and
per-field records below only group the constants by the naming scheme
`CSR_<REG>_ADDR`, `CSR_<REG>_<FIELD>_WIDTH`, ... of the headers.
-/

/-! ## Data model of a header -/

/-- The three permission qualifiers the headers define:
`__I` (`volatile const`), `__O` (`volatile`), `__IO` (`volatile`). -/
inductive Qual where
  /-- `__I`, read only -/
  | I
  /-- `__O`, write only -/
  | O
  /-- `__IO`, read / write -/
  | RW
deriving DecidableEq, Repr

/-- One member of a bit-field struct: `uint32_t NAME : BITS;`.  The member
`uint32_t : BITS;` has no name. -/
structure BitMember where
  name : Option String
  bits : Nat
deriving DecidableEq, Repr

/-- One member of the register map struct `csr_t`. -/
inductive MapMember where
  /-- `QUAL uint32_t NAME[LEN];`: an array of `LEN` 32-bit words -/
  | arr (q : Qual) (name : Option String) (len : Nat)
  /-- `union { QUAL uint32_t NAME; QUAL csr_x_t NAME_bf; };` where `bf` is the
  member list of the bit-field struct `csr_x_t` -/
  | reg (q : Qual) (name : String) (bfq : Qual) (bf : List BitMember) (bfName : String)
deriving DecidableEq, Repr

/-- The four constants `CSR_<REG>_<FIELD>_WIDTH`, `_LSB`, `_MASK`, `_RESET`
of one field, and the enumerators of its `typedef enum`, if it has one. -/
structure FieldConsts where
  name : String
  WIDTH : Nat
  LSB : Nat
  MASK : Nat
  RESET : Nat
  enums : List (String × Nat)
deriving DecidableEq, Repr

/-- The constants `CSR_<REG>_ADDR`, `CSR_<REG>_RESET` of one register, its
bit-field struct `csr_<reg>_t` and its fields in the order of the header. -/
structure RegConsts where
  name : String
  ADDR : Nat
  RESET : Nat
  bf : List BitMember
  fields : List FieldConsts
deriving DecidableEq, Repr

/-- A whole header: `CSR_BASE_ADDR`, the registers in the order of the
constant section, and the members of `csr_t`. -/
structure Header where
  BASE_ADDR : Nat
  regs : List RegConsts
  csr_t : List MapMember
deriving DecidableEq, Repr

/-! ## `examples/regmap_yaml/sw/regs.h` -/

namespace RegmapYaml

def CSR_BASE_ADDR : Nat := 0x0

-- DATA - Data register
def CSR_DATA_ADDR : Nat := 0x4
def CSR_DATA_RESET : Nat := 0x0
def csr_data_t : List BitMember :=
  [ ⟨some "FIFO", 8⟩,
    ⟨none, 8⟩,
    ⟨some "FERR", 1⟩,
    ⟨some "PERR", 1⟩,
    ⟨none, 14⟩ ]

-- DATA.FIFO
def CSR_DATA_FIFO_WIDTH : Nat := 8
def CSR_DATA_FIFO_LSB : Nat := 0
def CSR_DATA_FIFO_MASK : Nat := 0xff
def CSR_DATA_FIFO_RESET : Nat := 0x0

-- DATA.FERR
def CSR_DATA_FERR_WIDTH : Nat := 1
def CSR_DATA_FERR_LSB : Nat := 16
def CSR_DATA_FERR_MASK : Nat := 0x10000
def CSR_DATA_FERR_RESET : Nat := 0x0

-- DATA.PERR
def CSR_DATA_PERR_WIDTH : Nat := 1
def CSR_DATA_PERR_LSB : Nat := 17
def CSR_DATA_PERR_MASK : Nat := 0x20000
def CSR_DATA_PERR_RESET : Nat := 0x0

-- STAT - Status register
def CSR_STAT_ADDR : Nat := 0xc
def CSR_STAT_RESET : Nat := 0x0
def csr_stat_t : List BitMember :=
  [ ⟨none, 2⟩,
    ⟨some "BUSY", 1⟩,
    ⟨none, 1⟩,
    ⟨some "RXE", 1⟩,
    ⟨none, 3⟩,
    ⟨some "TXF", 1⟩,
    ⟨none, 23⟩ ]

-- STAT.BUSY
def CSR_STAT_BUSY_WIDTH : Nat := 1
def CSR_STAT_BUSY_LSB : Nat := 2
def CSR_STAT_BUSY_MASK : Nat := 0x4
def CSR_STAT_BUSY_RESET : Nat := 0x0

-- STAT.RXE
def CSR_STAT_RXE_WIDTH : Nat := 1
def CSR_STAT_RXE_LSB : Nat := 4
def CSR_STAT_RXE_MASK : Nat := 0x10
def CSR_STAT_RXE_RESET : Nat := 0x0

-- STAT.TXF
def CSR_STAT_TXF_WIDTH : Nat := 1
def CSR_STAT_TXF_LSB : Nat := 8
def CSR_STAT_TXF_MASK : Nat := 0x100
def CSR_STAT_TXF_RESET : Nat := 0x0

-- CTRL - Control register
def CSR_CTRL_ADDR : Nat := 0x10
def CSR_CTRL_RESET : Nat := 0x0
def csr_ctrl_t : List BitMember :=
  [ ⟨some "BAUD", 2⟩,
    ⟨none, 2⟩,
    ⟨some "TXEN", 1⟩,
    ⟨some "RXEN", 1⟩,
    ⟨some "TXST", 1⟩,
    ⟨none, 25⟩ ]

-- CTRL.BAUD
def CSR_CTRL_BAUD_WIDTH : Nat := 2
def CSR_CTRL_BAUD_LSB : Nat := 0
def CSR_CTRL_BAUD_MASK : Nat := 0x3
def CSR_CTRL_BAUD_RESET : Nat := 0x0
def CSR_CTRL_BAUD_B9600 : Nat := 0x0
def CSR_CTRL_BAUD_B38400 : Nat := 0x1
def CSR_CTRL_BAUD_B115200 : Nat := 0x2
def csr_ctrl_baud_t : List (String × Nat) :=
  [ ("B9600", CSR_CTRL_BAUD_B9600),
    ("B38400", CSR_CTRL_BAUD_B38400),
    ("B115200", CSR_CTRL_BAUD_B115200) ]

-- CTRL.TXEN
def CSR_CTRL_TXEN_WIDTH : Nat := 1
def CSR_CTRL_TXEN_LSB : Nat := 4
def CSR_CTRL_TXEN_MASK : Nat := 0x10
def CSR_CTRL_TXEN_RESET : Nat := 0x0

-- CTRL.RXEN
def CSR_CTRL_RXEN_WIDTH : Nat := 1
def CSR_CTRL_RXEN_LSB : Nat := 5
def CSR_CTRL_RXEN_MASK : Nat := 0x20
def CSR_CTRL_RXEN_RESET : Nat := 0x0

-- CTRL.TXST
def CSR_CTRL_TXST_WIDTH : Nat := 1
def CSR_CTRL_TXST_LSB : Nat := 6
def CSR_CTRL_TXST_MASK : Nat := 0x40
def CSR_CTRL_TXST_RESET : Nat := 0x0

-- LPMODE - Low power mode control
def CSR_LPMODE_ADDR : Nat := 0x14
def CSR_LPMODE_RESET : Nat := 0x0
def csr_lpmode_t : List BitMember :=
  [ ⟨some "DIV", 8⟩,
    ⟨none, 23⟩,
    ⟨some "EN", 1⟩ ]

-- LPMODE.DIV
def CSR_LPMODE_DIV_WIDTH : Nat := 8
def CSR_LPMODE_DIV_LSB : Nat := 0
def CSR_LPMODE_DIV_MASK : Nat := 0xff
def CSR_LPMODE_DIV_RESET : Nat := 0x0

-- LPMODE.EN
def CSR_LPMODE_EN_WIDTH : Nat := 1
def CSR_LPMODE_EN_LSB : Nat := 31
def CSR_LPMODE_EN_MASK : Nat := 0x80000000
def CSR_LPMODE_EN_RESET : Nat := 0x0

-- INTSTAT - Interrupt status register
def CSR_INTSTAT_ADDR : Nat := 0x20
def CSR_INTSTAT_RESET : Nat := 0x0
def csr_intstat_t : List BitMember :=
  [ ⟨some "TX", 1⟩,
    ⟨some "RX", 1⟩,
    ⟨none, 30⟩ ]

-- INTSTAT.TX
def CSR_INTSTAT_TX_WIDTH : Nat := 1
def CSR_INTSTAT_TX_LSB : Nat := 0
def CSR_INTSTAT_TX_MASK : Nat := 0x1
def CSR_INTSTAT_TX_RESET : Nat := 0x0

-- INTSTAT.RX
def CSR_INTSTAT_RX_WIDTH : Nat := 1
def CSR_INTSTAT_RX_LSB : Nat := 1
def CSR_INTSTAT_RX_MASK : Nat := 0x2
def CSR_INTSTAT_RX_RESET : Nat := 0x0

-- ID - IP-core ID register
def CSR_ID_ADDR : Nat := 0x40
def CSR_ID_RESET : Nat := 0xcafe0666
def csr_id_t : List BitMember :=
  [ ⟨some "UID", 32⟩ ]

-- ID.UID
def CSR_ID_UID_WIDTH : Nat := 32
def CSR_ID_UID_LSB : Nat := 0
def CSR_ID_UID_MASK : Nat := 0xffffffff
def CSR_ID_UID_RESET : Nat := 0xcafe0666

/-- Register map structure `csr_t`, members in declaration order. -/
def csr_t : List MapMember :=
  [ .arr .RW (some "RESERVED0") 1,
    .reg .RW "DATA" .RW csr_data_t "DATA_bf",
    .arr .RW (some "RESERVED1") 1,
    .reg .I "STAT" .I csr_stat_t "STAT_bf",
    .reg .RW "CTRL" .RW csr_ctrl_t "CTRL_bf",
    .reg .RW "LPMODE" .RW csr_lpmode_t "LPMODE_bf",
    .arr .RW (some "RESERVED2") 2,
    .reg .RW "INTSTAT" .RW csr_intstat_t "INTSTAT_bf",
    .arr .RW (some "RESERVED3") 7,
    .reg .I "ID" .I csr_id_t "ID_bf" ]

/-! Grouping of the constants by register and field. -/

def DATA_FIFO : FieldConsts :=
  ⟨"FIFO", CSR_DATA_FIFO_WIDTH, CSR_DATA_FIFO_LSB, CSR_DATA_FIFO_MASK, CSR_DATA_FIFO_RESET, []⟩
def DATA_FERR : FieldConsts :=
  ⟨"FERR", CSR_DATA_FERR_WIDTH, CSR_DATA_FERR_LSB, CSR_DATA_FERR_MASK, CSR_DATA_FERR_RESET, []⟩
def DATA_PERR : FieldConsts :=
  ⟨"PERR", CSR_DATA_PERR_WIDTH, CSR_DATA_PERR_LSB, CSR_DATA_PERR_MASK, CSR_DATA_PERR_RESET, []⟩
def STAT_BUSY : FieldConsts :=
  ⟨"BUSY", CSR_STAT_BUSY_WIDTH, CSR_STAT_BUSY_LSB, CSR_STAT_BUSY_MASK, CSR_STAT_BUSY_RESET, []⟩
def STAT_RXE : FieldConsts :=
  ⟨"RXE", CSR_STAT_RXE_WIDTH, CSR_STAT_RXE_LSB, CSR_STAT_RXE_MASK, CSR_STAT_RXE_RESET, []⟩
def STAT_TXF : FieldConsts :=
  ⟨"TXF", CSR_STAT_TXF_WIDTH, CSR_STAT_TXF_LSB, CSR_STAT_TXF_MASK, CSR_STAT_TXF_RESET, []⟩
def CTRL_BAUD : FieldConsts :=
  ⟨"BAUD", CSR_CTRL_BAUD_WIDTH, CSR_CTRL_BAUD_LSB, CSR_CTRL_BAUD_MASK, CSR_CTRL_BAUD_RESET,
    csr_ctrl_baud_t⟩
def CTRL_TXEN : FieldConsts :=
  ⟨"TXEN", CSR_CTRL_TXEN_WIDTH, CSR_CTRL_TXEN_LSB, CSR_CTRL_TXEN_MASK, CSR_CTRL_TXEN_RESET, []⟩
def CTRL_RXEN : FieldConsts :=
  ⟨"RXEN", CSR_CTRL_RXEN_WIDTH, CSR_CTRL_RXEN_LSB, CSR_CTRL_RXEN_MASK, CSR_CTRL_RXEN_RESET, []⟩
def CTRL_TXST : FieldConsts :=
  ⟨"TXST", CSR_CTRL_TXST_WIDTH, CSR_CTRL_TXST_LSB, CSR_CTRL_TXST_MASK, CSR_CTRL_TXST_RESET, []⟩
def LPMODE_DIV : FieldConsts :=
  ⟨"DIV", CSR_LPMODE_DIV_WIDTH, CSR_LPMODE_DIV_LSB, CSR_LPMODE_DIV_MASK, CSR_LPMODE_DIV_RESET, []⟩
def LPMODE_EN : FieldConsts :=
  ⟨"EN", CSR_LPMODE_EN_WIDTH, CSR_LPMODE_EN_LSB, CSR_LPMODE_EN_MASK, CSR_LPMODE_EN_RESET, []⟩
def INTSTAT_TX : FieldConsts :=
  ⟨"TX", CSR_INTSTAT_TX_WIDTH, CSR_INTSTAT_TX_LSB, CSR_INTSTAT_TX_MASK, CSR_INTSTAT_TX_RESET, []⟩
def INTSTAT_RX : FieldConsts :=
  ⟨"RX", CSR_INTSTAT_RX_WIDTH, CSR_INTSTAT_RX_LSB, CSR_INTSTAT_RX_MASK, CSR_INTSTAT_RX_RESET, []⟩
def ID_UID : FieldConsts :=
  ⟨"UID", CSR_ID_UID_WIDTH, CSR_ID_UID_LSB, CSR_ID_UID_MASK, CSR_ID_UID_RESET, []⟩

def DATA : RegConsts :=
  ⟨"DATA", CSR_DATA_ADDR, CSR_DATA_RESET, csr_data_t, [DATA_FIFO, DATA_FERR, DATA_PERR]⟩
def STAT : RegConsts :=
  ⟨"STAT", CSR_STAT_ADDR, CSR_STAT_RESET, csr_stat_t, [STAT_BUSY, STAT_RXE, STAT_TXF]⟩
def CTRL : RegConsts :=
  ⟨"CTRL", CSR_CTRL_ADDR, CSR_CTRL_RESET, csr_ctrl_t,
    [CTRL_BAUD, CTRL_TXEN, CTRL_RXEN, CTRL_TXST]⟩
def LPMODE : RegConsts :=
  ⟨"LPMODE", CSR_LPMODE_ADDR, CSR_LPMODE_RESET, csr_lpmode_t, [LPMODE_DIV, LPMODE_EN]⟩
def INTSTAT : RegConsts :=
  ⟨"INTSTAT", CSR_INTSTAT_ADDR, CSR_INTSTAT_RESET, csr_intstat_t, [INTSTAT_TX, INTSTAT_RX]⟩
def ID : RegConsts :=
  ⟨"ID", CSR_ID_ADDR, CSR_ID_RESET, csr_id_t, [ID_UID]⟩

/-- The header as a whole, registers in the order they are emitted. -/
def header : Header :=
  ⟨CSR_BASE_ADDR, [DATA, STAT, CTRL, LPMODE, INTSTAT, ID], csr_t⟩

end RegmapYaml

/-! ## `examples/regmap_txt/sw/regs.h` -/

namespace RegmapTxt

def CSR_BASE_ADDR : Nat := 0x0

-- DATA - Data register
def CSR_DATA_ADDR : Nat := 0x0
def CSR_DATA_RESET : Nat := 0x0
def csr_data_t : List BitMember :=
  [ ⟨some "VAL", 32⟩ ]

-- DATA.val
def CSR_DATA_VAL_WIDTH : Nat := 32
def CSR_DATA_VAL_LSB : Nat := 0
def CSR_DATA_VAL_MASK : Nat := 0x0
def CSR_DATA_VAL_RESET : Nat := 0x0

-- CTRL - Control register
def CSR_CTRL_ADDR : Nat := 0x4
def CSR_CTRL_RESET : Nat := 0x100
def csr_ctrl_t : List BitMember :=
  [ ⟨some "VAL", 16⟩,
    ⟨none, 16⟩ ]

-- CTRL.val
def CSR_CTRL_VAL_WIDTH : Nat := 16
def CSR_CTRL_VAL_LSB : Nat := 0
def CSR_CTRL_VAL_MASK : Nat := 0x4
def CSR_CTRL_VAL_RESET : Nat := 0x100

-- STATUS - Status register
def CSR_STATUS_ADDR : Nat := 0x8
def CSR_STATUS_RESET : Nat := 0x0
def csr_status_t : List BitMember :=
  [ ⟨some "VAL", 8⟩,
    ⟨none, 24⟩ ]

-- STATUS.val
def CSR_STATUS_VAL_WIDTH : Nat := 8
def CSR_STATUS_VAL_LSB : Nat := 0
def CSR_STATUS_VAL_MASK : Nat := 0x8
def CSR_STATUS_VAL_RESET : Nat := 0x0

-- START - Start register
def CSR_START_ADDR : Nat := 0x100
def CSR_START_RESET : Nat := 0x0
def csr_start_t : List BitMember :=
  [ ⟨some "VAL", 1⟩,
    ⟨none, 31⟩ ]

-- START.val
def CSR_START_VAL_WIDTH : Nat := 1
def CSR_START_VAL_LSB : Nat := 0
def CSR_START_VAL_MASK : Nat := 0x100
def CSR_START_VAL_RESET : Nat := 0x0

/-- Register map structure `csr_t`, members in declaration order. -/
def csr_t : List MapMember :=
  [ .reg .RW "DATA" .RW csr_data_t "DATA_bf",
    .reg .RW "CTRL" .RW csr_ctrl_t "CTRL_bf",
    .reg .I "STATUS" .I csr_status_t "STATUS_bf",
    .arr .RW (some "RESERVED0") 61,
    .reg .O "START" .O csr_start_t "START_bf" ]

/-! Grouping of the constants by register and field. -/

def DATA_VAL : FieldConsts :=
  ⟨"VAL", CSR_DATA_VAL_WIDTH, CSR_DATA_VAL_LSB, CSR_DATA_VAL_MASK, CSR_DATA_VAL_RESET, []⟩
def CTRL_VAL : FieldConsts :=
  ⟨"VAL", CSR_CTRL_VAL_WIDTH, CSR_CTRL_VAL_LSB, CSR_CTRL_VAL_MASK, CSR_CTRL_VAL_RESET, []⟩
def STATUS_VAL : FieldConsts :=
  ⟨"VAL", CSR_STATUS_VAL_WIDTH, CSR_STATUS_VAL_LSB, CSR_STATUS_VAL_MASK, CSR_STATUS_VAL_RESET, []⟩
def START_VAL : FieldConsts :=
  ⟨"VAL", CSR_START_VAL_WIDTH, CSR_START_VAL_LSB, CSR_START_VAL_MASK, CSR_START_VAL_RESET, []⟩

def DATA : RegConsts :=
  ⟨"DATA", CSR_DATA_ADDR, CSR_DATA_RESET, csr_data_t, [DATA_VAL]⟩
def CTRL : RegConsts :=
  ⟨"CTRL", CSR_CTRL_ADDR, CSR_CTRL_RESET, csr_ctrl_t, [CTRL_VAL]⟩
def STATUS : RegConsts :=
  ⟨"STATUS", CSR_STATUS_ADDR, CSR_STATUS_RESET, csr_status_t, [STATUS_VAL]⟩
def START : RegConsts :=
  ⟨"START", CSR_START_ADDR, CSR_START_RESET, csr_start_t, [START_VAL]⟩

/-- The header as a whole, registers in the order they are emitted. -/
def header : Header :=
  ⟨CSR_BASE_ADDR, [DATA, CTRL, STATUS, START], csr_t⟩

end RegmapTxt

/-- Both example headers. -/
def exampleHeaders : List Header := [RegmapYaml.header, RegmapTxt.header]

/-! ## Derived quantities -/

/-- Size of a register word in bytes (`uint32_t`). -/
def wordBytes : Nat := 4

/-- Width of a register word in bits (`uint32_t`). -/
def wordBits : Nat := 32

/-- The mask formula of the generator contract, `((1 << width) - 1) << lsb`,
as an unsigned 32-bit value. -/
def maskOf (width lsb : Nat) : Nat :=
  (((1 <<< width) - 1) <<< lsb) % 2 ^ wordBits

/-- The reset formula of the generator contract: the bitwise OR, over the
fields, of the field reset shifted left by the field LSB. -/
def resetOf (fields : List FieldConsts) : Nat :=
  fields.foldl (fun acc f => acc ||| (f.RESET <<< f.LSB)) 0

/-- All fields of a header, in the order of the header. -/
def Header.allFields (h : Header) : List FieldConsts :=
  (h.regs.map RegConsts.fields).flatten

/-- Bit `i` lies in the range `[LSB, LSB + WIDTH)` of the field. -/
def FieldConsts.covers (f : FieldConsts) (i : Nat) : Prop :=
  f.LSB ≤ i ∧ i < f.LSB + f.WIDTH

instance (f : FieldConsts) (i : Nat) : Decidable (f.covers i) :=
  inferInstanceAs (Decidable (_ ∧ _))

/-- The ranges of two fields do not meet: one ends at or before the other
begins. -/
def FieldConsts.disjoint (f g : FieldConsts) : Prop :=
  f.LSB + f.WIDTH ≤ g.LSB ∨ g.LSB + g.WIDTH ≤ f.LSB

instance (f g : FieldConsts) : Decidable (f.disjoint g) :=
  inferInstanceAs (Decidable (_ ∨ _))

/-! ### Bit-field structs -/

/-- Each member of a bit-field struct together with its bit offset, the sum of
the widths of the members declared before it; `off` is the offset of the
first member. -/
def bitOffsets : Nat → List BitMember → List (BitMember × Nat)
  | _, [] => []
  | off, m :: ms => (m, off) :: bitOffsets (off + m.bits) ms

/-- The named members of a bit-field struct as (name, bit offset, width), in
declaration order. -/
def namedMembers (bf : List BitMember) : List (String × Nat × Nat) :=
  (bitOffsets 0 bf).filterMap (fun p => p.1.name.map (fun n => (n, p.2, p.1.bits)))

/-- Bit `i` falls in the member `p.1` placed at bit offset `p.2`. -/
def inMember (p : BitMember × Nat) (i : Nat) : Prop :=
  p.2 ≤ i ∧ i < p.2 + p.1.bits

instance (p : BitMember × Nat) (i : Nat) : Decidable (inMember p i) :=
  inferInstanceAs (Decidable (_ ∧ _))

/-! ### The register map struct `csr_t` -/

/-- Number of 32-bit words a member of `csr_t` occupies: `LEN` for an array,
one for a register union (both union members are one word). -/
def MapMember.words : MapMember → Nat
  | .arr _ _ len => len
  | .reg _ _ _ _ _ => 1

/-- The member is a reserved padding array. -/
def MapMember.isPadding : MapMember → Bool
  | .arr _ _ _ => true
  | .reg _ _ _ _ _ => false

/-- The name the member is declared with, if it has one (for a register
union, the name of its word member). -/
def MapMember.memberName : MapMember → Option String
  | .arr _ name _ => name
  | .reg _ name _ _ _ => some name

/-- Walk of the members of `csr_t` in declaration order from byte address
`addr`: each member with the byte address it starts at. -/
def walk : Nat → List MapMember → List (MapMember × Nat)
  | _, [] => []
  | addr, m :: ms => (m, addr) :: walk (addr + wordBytes * m.words) ms

/-- The register unions met by the walk, as (name, start address). -/
def regStarts (base : Nat) (ms : List MapMember) : List (String × Nat) :=
  (walk base ms).filterMap fun p =>
    match p.1 with
    | .reg _ name _ _ _ => some (name, p.2)
    | .arr _ _ _ => none

/-- The word addresses a placed member occupies. -/
def memberWords (p : MapMember × Nat) : List Nat :=
  (List.range p.1.words).map (fun k => p.2 + wordBytes * k)

/-- The word addresses occupied by all members of `csr_t`, in declaration
order. -/
def coveredWords (base : Nat) (ms : List MapMember) : List Nat :=
  ((walk base ms).map memberWords).flatten

/-- The byte address just past the last register of the header. -/
def Header.endAddr (h : Header) : Nat :=
  match h.regs.getLast? with
  | some r => r.ADDR + wordBytes
  | none => h.BASE_ADDR

/-- The registers of `csr_t` in declaration order, each looked up by name
among the registers of the constant section. -/
def Header.csrRegs (h : Header) : List RegConsts :=
  h.csr_t.filterMap fun m =>
    match m with
    | .reg _ name _ _ _ => h.regs.find? (fun r => r.name == name)
    | .arr _ _ _ => none

/-- The reserved padding arrays of `csr_t` as (declared name, length in
words), in declaration order. -/
def paddings (ms : List MapMember) : List (Option String × Nat) :=
  ms.filterMap fun m =>
    match m with
    | .arr _ name len => some (name, len)
    | .reg _ _ _ _ _ => none

/-! ### The layout rule of the specification -/

/-- Shape of a member of `csr_t`: a reserved run of so many words, or the
register of that name. -/
inductive Slot where
  | reserved (words : Nat)
  | register (name : String)
deriving DecidableEq, Repr

/-- Shape of a member of `csr_t` as declared in the header. -/
def MapMember.slot : MapMember → Slot
  | .arr _ _ len => .reserved len
  | .reg _ name _ _ _ => .register name

/-- A register preceded by a reserved run of `gap` words; no run is emitted
for an empty gap. -/
def slotsFor (gap : Nat) (name : String) : List Slot :=
  if gap = 0 then [.register name] else [.reserved gap, .register name]

/-- Layout rule of the specification for the registers after the one at
`prev`: a reserved run of `(next.ADDR - prev.ADDR)/4 - 1` words between
consecutive registers. -/
def specBetween (prev : Nat) : List RegConsts → List Slot
  | [] => []
  | r :: rs => slotsFor ((r.ADDR - prev) / wordBytes - 1) r.name ++ specBetween r.ADDR rs

/-- Layout rule of the specification: a leading reserved run of
`(first.ADDR - BASE)/4` words, then `specBetween`. -/
def specLayout (base : Nat) : List RegConsts → List Slot
  | [] => []
  | r :: rs => slotsFor ((r.ADDR - base) / wordBytes) r.name ++ specBetween r.ADDR rs

/-- The reserved runs of a layout, numbered from 0 in order, under the names
`RESERVED0`, `RESERVED1`, ... -/
def numberedRuns (n : Nat) : List Slot → List (Option String × Nat)
  | [] => []
  | .reserved w :: ss => (some ("RESERVED" ++ toString n), w) :: numberedRuns (n + 1) ss
  | .register _ :: ss => numberedRuns n ss

/-- The fields of a header that span the whole word (`WIDTH = 32`,
`LSB = 0`), each with its register. -/
def Header.fullWordFields (h : Header) : List (RegConsts × FieldConsts) :=
  (h.regs.map fun r =>
    (r.fields.filter fun f => f.WIDTH == wordBits && f.LSB == 0).map fun f => (r, f)).flatten

/-! ## Masks -/

/-- C1: in `regmap_yaml/sw/regs.h` there are 15 fields and each `_MASK`
constant equals `((1 << WIDTH) - 1) << LSB` of the same field, both as an
unsigned 32-bit value and without truncation; for `LPMODE.EN` this is
`0x80000000` and for `ID.UID` it is `0xffffffff`. -/
theorem yaml_masks_follow_formula :
    RegmapYaml.header.allFields.length = 15 ∧
    (∀ f ∈ RegmapYaml.header.allFields,
      f.MASK = maskOf f.WIDTH f.LSB ∧ f.MASK = ((1 <<< f.WIDTH) - 1) <<< f.LSB) ∧
    RegmapYaml.CSR_LPMODE_EN_MASK = 0x80000000 ∧
    RegmapYaml.CSR_ID_UID_MASK = 0xffffffff := by
  decide

/-- The mask of `ID.UID`, a field of the yaml header, is the formula value. -/
theorem yaml_masks_follow_formula_witness :
    RegmapYaml.ID_UID ∈ RegmapYaml.header.allFields ∧
    RegmapYaml.ID_UID.MASK = maskOf 32 0 ∧
    RegmapYaml.ID_UID.MASK = ((1 <<< 32) - 1) <<< 0 :=
  ⟨by decide, yaml_masks_follow_formula.2.1 RegmapYaml.ID_UID (by decide)⟩

/-- C2: in `regmap_txt/sw/regs.h` the `_MASK` constants do not follow the
formula: `CSR_CTRL_VAL_MASK` is `0x4` where `((1 << 16) - 1) << 0` is
`0xffff`, and each of the four fields has the address of its register as
its mask and differs from the formula value. -/
theorem txt_masks_are_addresses :
    RegmapTxt.CSR_CTRL_VAL_WIDTH = 16 ∧ RegmapTxt.CSR_CTRL_VAL_LSB = 0 ∧
    maskOf RegmapTxt.CSR_CTRL_VAL_WIDTH RegmapTxt.CSR_CTRL_VAL_LSB = 0xffff ∧
    RegmapTxt.CSR_CTRL_VAL_MASK = 0x4 ∧
    RegmapTxt.CSR_CTRL_VAL_MASK ≠
      maskOf RegmapTxt.CSR_CTRL_VAL_WIDTH RegmapTxt.CSR_CTRL_VAL_LSB ∧
    RegmapTxt.header.allFields.length = 4 ∧
    (RegmapTxt.header.regs.all fun r => r.fields.all fun f =>
      decide (f.MASK = r.ADDR ∧ f.MASK ≠ maskOf f.WIDTH f.LSB)) = true := by
  decide

/-! ## Layout of `csr_t` -/

/-- C3: in both headers, walking `csr_t` from `CSR_BASE_ADDR` puts every
register union at the address of its `CSR_<REG>_ADDR` constant; the members
cover every word from the base address to the end of the last register
exactly once; and the members are those of the layout rule: a leading
reserved array of `(first.ADDR - BASE)/4` words, one of
`(next.ADDR - prev.ADDR)/4 - 1` words between consecutive registers, and none
where the gap is empty. -/
theorem csr_t_layout_matches_addresses :
    ∀ h ∈ exampleHeaders,
      regStarts h.BASE_ADDR h.csr_t = h.regs.map (fun r => (r.name, r.ADDR)) ∧
      coveredWords h.BASE_ADDR h.csr_t =
        (List.range ((h.endAddr - h.BASE_ADDR) / wordBytes)).map
          (fun k => h.BASE_ADDR + wordBytes * k) ∧
      h.csr_t.map MapMember.slot = specLayout h.BASE_ADDR h.regs := by
  decide

/-- In the txt header the walk meets `START` at `0x100`, after the 61 words of
`RESERVED0`. -/
theorem csr_t_layout_matches_addresses_witness :
    RegmapTxt.header ∈ exampleHeaders ∧
    regStarts 0 RegmapTxt.csr_t =
      [("DATA", 0x0), ("CTRL", 0x4), ("STATUS", 0x8), ("START", 0x100)] ∧
    coveredWords 0 RegmapTxt.csr_t = (List.range 65).map (fun k => 0 + 4 * k) ∧
    RegmapTxt.csr_t.map MapMember.slot =
      [.register "DATA", .register "CTRL", .register "STATUS", .reserved 61,
        .register "START"] :=
  ⟨by decide, csr_t_layout_matches_addresses RegmapTxt.header (by decide)⟩

/-! ## Register reset values -/

/-- C4: in both headers every `CSR_<REG>_RESET` constant is the bitwise OR,
over the fields of the register, of the field `_RESET` shifted left by the
field `_LSB`; and every bit of the register reset outside all field ranges
is 0. -/
theorem reg_reset_is_or_of_field_resets :
    ∀ h ∈ exampleHeaders, ∀ r ∈ h.regs,
      r.RESET = resetOf r.fields ∧
      ∀ i : Nat, (∀ f ∈ r.fields, ¬ f.covers i) → r.RESET.testBit i = false := by
  have key : ∀ h ∈ exampleHeaders, ∀ r ∈ h.regs,
      r.RESET = resetOf r.fields ∧ r.RESET < 2 ^ wordBits ∧
      ∀ i < wordBits, (∀ f ∈ r.fields, ¬ f.covers i) → r.RESET.testBit i = false := by
    decide
  intro h hh r hr
  obtain ⟨hreset, hlt, hbits⟩ := key h hh r hr
  refine ⟨hreset, fun i hout => ?_⟩
  by_cases hi : i < wordBits
  · exact hbits i hi hout
  · apply Nat.testBit_lt_two_pow
    exact Nat.lt_of_lt_of_le hlt (Nat.pow_le_pow_right (by decide) (Nat.le_of_not_lt hi))

/-- The reset of `CTRL` in the txt header is the OR of its field resets, and
its bit 20, outside the field `VAL`, is 0. -/
theorem reg_reset_is_or_of_field_resets_witness :
    RegmapTxt.header ∈ exampleHeaders ∧ RegmapTxt.CTRL ∈ RegmapTxt.header.regs ∧
    (RegmapTxt.CTRL.RESET = 0x100 ∧ RegmapTxt.CTRL.RESET = resetOf RegmapTxt.CTRL.fields) ∧
    RegmapTxt.CTRL.RESET.testBit 20 = false :=
  ⟨by decide, by decide,
    ⟨by decide,
      (reg_reset_is_or_of_field_resets RegmapTxt.header (by decide)
        RegmapTxt.CTRL (by decide)).1⟩,
    (reg_reset_is_or_of_field_resets RegmapTxt.header (by decide)
        RegmapTxt.CTRL (by decide)).2 20 (by decide)⟩

/-! ## Bit-field structs -/

/-- C5: in both headers, for every bit-field struct the member widths sum to
32; the named members, in declaration order, are the fields of the register,
each at the bit offset of its `_LSB` constant with the width of its `_WIDTH`
constant; and every bit of the word outside all fields falls in an unnamed
member. -/
theorem bitfield_struct_matches_constants :
    ∀ h ∈ exampleHeaders, ∀ r ∈ h.regs,
      (r.bf.map BitMember.bits).sum = wordBits ∧
      namedMembers r.bf = r.fields.map (fun f => (f.name, f.LSB, f.WIDTH)) ∧
      ∀ i < wordBits, (∀ f ∈ r.fields, ¬ f.covers i) →
        ∃ p ∈ bitOffsets 0 r.bf, p.1.name = none ∧ inMember p i := by
  decide

/-- The struct `csr_lpmode_t` of the yaml header: 32 bits, `DIV` at bit 0 and
`EN` at bit 31, and bit 12 in the unnamed member at offset 8. -/
theorem bitfield_struct_matches_constants_witness :
    RegmapYaml.header ∈ exampleHeaders ∧ RegmapYaml.LPMODE ∈ RegmapYaml.header.regs ∧
    (RegmapYaml.csr_lpmode_t.map BitMember.bits).sum = 32 ∧
    namedMembers RegmapYaml.csr_lpmode_t = [("DIV", 0, 8), ("EN", 31, 1)] ∧
    ∃ p ∈ bitOffsets 0 RegmapYaml.csr_lpmode_t, p.1.name = none ∧ inMember p 12 :=
  ⟨by decide, by decide,
    (bitfield_struct_matches_constants RegmapYaml.header (by decide)
      RegmapYaml.LPMODE (by decide)).1,
    (bitfield_struct_matches_constants RegmapYaml.header (by decide)
      RegmapYaml.LPMODE (by decide)).2.1,
    (bitfield_struct_matches_constants RegmapYaml.header (by decide)
      RegmapYaml.LPMODE (by decide)).2.2 12 (by decide) (by decide)⟩

/-! ## Addresses -/

/-- C6: in both headers every `CSR_<REG>_ADDR` is a multiple of 4 and not
below `CSR_BASE_ADDR`; the addresses are pairwise distinct and strictly
ascending in the order of the constant section; and `csr_t` declares the
same registers in the same order, so they ascend there as well. -/
theorem reg_addresses_aligned_ascending :
    ∀ h ∈ exampleHeaders,
      (∀ r ∈ h.regs, r.ADDR % wordBytes = 0 ∧ h.BASE_ADDR ≤ r.ADDR) ∧
      (h.regs.map RegConsts.ADDR).Nodup ∧
      (h.regs.map RegConsts.ADDR).Pairwise (· < ·) ∧
      h.csrRegs = h.regs ∧
      (h.csrRegs.map RegConsts.ADDR).Pairwise (· < ·) := by
  decide

/-- The addresses of the yaml header: `CSR_INTSTAT_ADDR` is aligned, and the
six addresses are distinct and ascending. -/
theorem reg_addresses_aligned_ascending_witness :
    RegmapYaml.header ∈ exampleHeaders ∧ RegmapYaml.INTSTAT ∈ RegmapYaml.header.regs ∧
    (RegmapYaml.INTSTAT.ADDR % 4 = 0 ∧ 0 ≤ RegmapYaml.INTSTAT.ADDR) ∧
    [0x4, 0xc, 0x10, 0x14, 0x20, 0x40].Nodup ∧
    [0x4, 0xc, 0x10, 0x14, 0x20, 0x40].Pairwise (· < ·) :=
  ⟨by decide, by decide,
    (reg_addresses_aligned_ascending RegmapYaml.header (by decide)).1
      RegmapYaml.INTSTAT (by decide),
    (reg_addresses_aligned_ascending RegmapYaml.header (by decide)).2.1,
    (reg_addresses_aligned_ascending RegmapYaml.header (by decide)).2.2.1⟩

/-! ## Field ranges and bounds -/

/-- C7: in both headers, within every register the bit ranges
`[LSB, LSB + WIDTH)` of the fields are pairwise disjoint: of two fields at
different places of the list, and of any two distinct fields, one ends at
or before the other begins. -/
theorem field_ranges_pairwise_disjoint :
    ∀ h ∈ exampleHeaders, ∀ r ∈ h.regs,
      r.fields.Pairwise FieldConsts.disjoint ∧
      ∀ f ∈ r.fields, ∀ g ∈ r.fields, f ≠ g → f.disjoint g := by
  decide

/-- In `CTRL` of the yaml header, `TXEN` (bit 4) and `RXEN` (bit 5) do not
meet. -/
theorem field_ranges_pairwise_disjoint_witness :
    RegmapYaml.header ∈ exampleHeaders ∧ RegmapYaml.CTRL ∈ RegmapYaml.header.regs ∧
    RegmapYaml.CTRL.fields.Pairwise FieldConsts.disjoint ∧
    RegmapYaml.CTRL_TXEN.disjoint RegmapYaml.CTRL_RXEN :=
  ⟨by decide, by decide,
    (field_ranges_pairwise_disjoint RegmapYaml.header (by decide)
      RegmapYaml.CTRL (by decide)).1,
    (field_ranges_pairwise_disjoint RegmapYaml.header (by decide)
      RegmapYaml.CTRL (by decide)).2 RegmapYaml.CTRL_TXEN (by decide)
      RegmapYaml.CTRL_RXEN (by decide) (by decide)⟩

/-- C8: in both headers every field has `1 <= WIDTH <= 32`,
`LSB + WIDTH <= 32` and `_RESET < 2^WIDTH`, and every enumerator of a field
is below `2^WIDTH`; the enumerators of `CTRL.BAUD`, of width 2, are `B9600`,
`B38400` and `B115200`. -/
theorem fields_within_schema_bounds :
    (∀ h ∈ exampleHeaders, ∀ r ∈ h.regs, ∀ f ∈ r.fields,
      1 ≤ f.WIDTH ∧ f.WIDTH ≤ wordBits ∧ f.LSB + f.WIDTH ≤ wordBits ∧
      f.RESET < 2 ^ f.WIDTH ∧ ∀ e ∈ f.enums, e.2 < 2 ^ f.WIDTH) ∧
    RegmapYaml.CTRL_BAUD.WIDTH = 2 ∧
    RegmapYaml.CTRL_BAUD.enums = [("B9600", 0x0), ("B38400", 0x1), ("B115200", 0x2)] ∧
    RegmapYaml.CSR_CTRL_BAUD_B9600 < 2 ^ RegmapYaml.CSR_CTRL_BAUD_WIDTH ∧
    RegmapYaml.CSR_CTRL_BAUD_B38400 < 2 ^ RegmapYaml.CSR_CTRL_BAUD_WIDTH ∧
    RegmapYaml.CSR_CTRL_BAUD_B115200 < 2 ^ RegmapYaml.CSR_CTRL_BAUD_WIDTH := by
  decide

/-- The field `CTRL.BAUD` of the yaml header is within the bounds, and so is
its enumerator `B115200`. -/
theorem fields_within_schema_bounds_witness :
    RegmapYaml.header ∈ exampleHeaders ∧ RegmapYaml.CTRL ∈ RegmapYaml.header.regs ∧
    RegmapYaml.CTRL_BAUD ∈ RegmapYaml.CTRL.fields ∧
    1 ≤ RegmapYaml.CTRL_BAUD.WIDTH ∧ RegmapYaml.CTRL_BAUD.WIDTH ≤ 32 ∧
    RegmapYaml.CTRL_BAUD.LSB + RegmapYaml.CTRL_BAUD.WIDTH ≤ 32 ∧
    RegmapYaml.CTRL_BAUD.RESET < 2 ^ RegmapYaml.CTRL_BAUD.WIDTH ∧
    RegmapYaml.CSR_CTRL_BAUD_B115200 < 2 ^ RegmapYaml.CTRL_BAUD.WIDTH :=
  have hb := fields_within_schema_bounds.1 RegmapYaml.header (by decide)
    RegmapYaml.CTRL (by decide) RegmapYaml.CTRL_BAUD (by decide)
  ⟨by decide, by decide, by decide, hb.1, hb.2.1, hb.2.2.1, hb.2.2.2.1,
    hb.2.2.2.2 ("B115200", RegmapYaml.CSR_CTRL_BAUD_B115200) (by decide)⟩

/-! ## Reserved padding of `csr_t` -/

/-- C9, as stated, fails: the first member of `csr_t` in the yaml header is a
reserved padding array and is declared with the name `RESERVED0`, so it is
not the case that no reserved padding member carries a name. -/
theorem reserved_padding_is_named :
    RegmapYaml.csr_t.head? = some (.arr .RW (some "RESERVED0") 1) ∧
    ¬ ∀ h ∈ exampleHeaders, ∀ m ∈ h.csr_t,
        m.isPadding = true → m.memberName = none := by
  decide

/-- C9, amended: in both headers every reserved padding array of `csr_t` is
sized in 32-bit words, with the word count of the layout rule, and is
declared under the name `RESERVEDn`, `n` counting the arrays from 0 in
declaration order; so every one of them carries a member name. -/
theorem reserved_padding_numbered :
    ∀ h ∈ exampleHeaders,
      paddings h.csr_t = numberedRuns 0 (specLayout h.BASE_ADDR h.regs) ∧
      ∀ m ∈ h.csr_t, m.isPadding = true → m.memberName ≠ none := by
  decide

/-- The reserved arrays of the yaml header are `RESERVED0[1]`, `RESERVED1[1]`,
`RESERVED2[2]`, `RESERVED3[7]`. -/
theorem reserved_padding_numbered_witness :
    RegmapYaml.header ∈ exampleHeaders ∧
    paddings RegmapYaml.csr_t =
      [(some "RESERVED0", 1), (some "RESERVED1", 1), (some "RESERVED2", 2),
        (some "RESERVED3", 7)] ∧
    (MapMember.arr .RW (some "RESERVED2") 2).memberName ≠ none :=
  ⟨by decide,
    (reserved_padding_numbered RegmapYaml.header (by decide)).1,
    (reserved_padding_numbered RegmapYaml.header (by decide)).2
      (.arr .RW (some "RESERVED2") 2) (by decide) (by decide)⟩

/-! ## Full-word fields -/

/-- C10, as stated, fails: `ID.UID` of the yaml header spans the full word
(`WIDTH = 32`, `LSB = 0`) and its mask `0xffffffff` is not `CSR_ID_ADDR`
(`0x40`); so not every full-word field has its register address as mask. -/
theorem full_word_mask_not_always_address :
    RegmapYaml.CSR_ID_UID_WIDTH = 32 ∧ RegmapYaml.CSR_ID_UID_LSB = 0 ∧
    RegmapYaml.CSR_ID_UID_MASK ≠ RegmapYaml.CSR_ID_ADDR ∧
    ¬ ∀ h ∈ exampleHeaders, ∀ r ∈ h.regs, ∀ f ∈ r.fields,
        f.WIDTH = 32 → f.LSB = 0 → f.MASK = r.ADDR := by
  decide

/-- C10, amended: the full-word fields of the two headers are `DATA.VAL` (txt)
and `ID.UID` (yaml).  For `DATA.VAL` the mask equals the register address,
`CSR_DATA_VAL_MASK = CSR_DATA_ADDR = 0x0`, and is not the bit mask; for
`ID.UID` the mask is the bit mask `0xffffffff` and is not the register
address `CSR_ID_ADDR = 0x40`. -/
theorem full_word_masks :
    RegmapTxt.header.fullWordFields = [(RegmapTxt.DATA, RegmapTxt.DATA_VAL)] ∧
    RegmapYaml.header.fullWordFields = [(RegmapYaml.ID, RegmapYaml.ID_UID)] ∧
    RegmapTxt.CSR_DATA_VAL_MASK = RegmapTxt.CSR_DATA_ADDR ∧
    RegmapTxt.CSR_DATA_ADDR = 0x0 ∧
    RegmapTxt.CSR_DATA_VAL_MASK ≠
      maskOf RegmapTxt.CSR_DATA_VAL_WIDTH RegmapTxt.CSR_DATA_VAL_LSB ∧
    RegmapYaml.CSR_ID_UID_MASK =
      maskOf RegmapYaml.CSR_ID_UID_WIDTH RegmapYaml.CSR_ID_UID_LSB ∧
    RegmapYaml.CSR_ID_UID_MASK = 0xffffffff ∧
    RegmapYaml.CSR_ID_ADDR = 0x40 ∧
    RegmapYaml.CSR_ID_UID_MASK ≠ RegmapYaml.CSR_ID_ADDR := by
  decide
